import Mathlib

/-!
Verification of the task-manager REST API (most elaborate variant:
`src/app.py`, `src/models.py`, `src/utils.py`).

The data model and every handler are shallowly embedded: the database is a
pair of lists (table `user`, table `task`), SQLAlchemy's
`query(...).filter(...).first()` becomes `List.find?`, `db.add`/`db.delete`/
`setattr`+`commit` become list append / first-match erase / first-match
update.  Password hashing and verification (bcrypt via passlib) and JWT
signing are external libraries; the embedding abstracts them as function
parameters (`hashPwd`, `verify`) and models a decoded token outcome as an
inductive (`DecodeResult`).  Pydantic request validation (field constraints
of `BaseTask` and `LoginInput`) is embedded as explicit validator functions
placed in front of the handlers, mirroring FastAPI's request flow where
dependency resolution (authentication) happens before parameter validation.
-/

namespace TaskApi

/-- A row of table `user` (`UserDB` in `models.py`). -/
structure User where
  id : Int
  email : String
  password_hash : String
deriving Repr, DecidableEq

/-- A row of table `task` (`TaskDB` in `models.py`). -/
structure Task where
  id : Int
  title : String
  completed : Bool
  user_id : Int
deriving Repr, DecidableEq

/-- The persistent state: the two tables the routes touch
(`ApiKeyDB` is declared in `models.py` but used by no route). -/
structure DB where
  users : List User
  tasks : List Task
deriving Repr, DecidableEq

/-- A validated `LoginInput` body (email pattern, password length already
checked by pydantic). -/
structure LoginInput where
  email : String
  password : String
deriving Repr, DecidableEq

/-- A validated `InputTask` body (title length, positive user_id already
checked by pydantic). -/
structure InputTask where
  title : String
  completed : Bool
  user_id : Int
deriving Repr, DecidableEq

/-- The `OutputTask` response schema. -/
structure OutputTask where
  id : Int
  title : String
  completed : Bool
  user_id : Int
deriving Repr, DecidableEq

/-- `OutputTask(**task.to_dict())`. -/
def taskToOutput (t : Task) : OutputTask :=
  ⟨t.id, t.title, t.completed, t.user_id⟩

/-- An HTTP response: a success payload with its status code, or an
`HTTPException` with status code and detail string. -/
inductive Resp (α : Type) where
  | ok (code : Nat) (val : α)
  | err (code : Nat) (detail : String)
deriving Repr, DecidableEq

/-- The status code of a response. -/
def Resp.code : Resp α → Nat
  | .ok c _ => c
  | .err c _ => c

/-- The raw (not yet validated) body of a task request. -/
structure RawTask where
  title : String
  completed : Bool
  user_id : Int
deriving Repr, DecidableEq

/-- The raw (not yet validated) body of a login/register request. -/
structure RawLogin where
  email : String
  password : String
deriving Repr, DecidableEq

/-- `.first()` on a filtered query: the first row satisfying the predicate.
This is exactly `List.find?`; kept as a definition to mirror the source. -/
def firstWhere (p : α → Bool) (l : List α) : Option α :=
  l.find? p

/-- `setattr` on the row found by `.filter(id == k).first()` followed by
`commit`: rewrite the first element satisfying `p`. -/
def updateFirst (p : α → Bool) (f : α → α) : List α → List α
  | [] => []
  | x :: xs => if p x then f x :: xs else x :: updateFirst p f xs

/-- `db.delete` of the row found by `.first()`: remove the first element
satisfying `p`. -/
def eraseFirst (p : α → Bool) : List α → List α
  | [] => []
  | x :: xs => if p x then xs else x :: eraseFirst p xs

/-- SQLite integer-primary-key autoincrement: one more than the largest
existing id (1 on an empty table). -/
def nextId (ids : List Int) : Int :=
  ids.foldr max 0 + 1

/-- A signed access token; only its subject claim matters to the routes.
`create_token` in `utils.py` sets `sub = str(id)`. -/
structure Token where
  sub : String
deriving Repr, DecidableEq

/-- `create_token` (`utils.py`): the token's subject is the decimal string
of the user id (expiry and signature are the JWT library's business and are
reflected in `DecodeResult` on the decoding side). -/
def create_token (id : Int) : Token :=
  ⟨toString id⟩

/-- A character of the local part of the `LoginInput` email pattern
`[A-Za-z0-9._%+-]` (ASCII letters and digits, like the regex class). -/
def isLocalChar (c : Char) : Bool :=
  c.isAlpha || c.isDigit || c = '.' || c = '_' || c = '%' || c = '+' || c = '-'

/-- A character of the domain part `[A-Za-z0-9.-]`. -/
def isDomainChar (c : Char) : Bool :=
  c.isAlpha || c.isDigit || c = '.' || c = '-'

/-- Matcher for the regex tail `\.[A-Za-z]{2,}` preceded by more of
`[A-Za-z0-9.-]`: at each position either the current character is the
final dot (and the rest is two or more ASCII letters) or it is one more
domain character.  The disjunction realises the regex's existential
semantics. -/
def domainTail : List Char → Bool
  | [] => false
  | c :: cs =>
    (c = '.' && cs.all Char.isAlpha && 2 ≤ cs.length)
      || (isDomainChar c && domainTail cs)

/-- Matcher for `[A-Za-z0-9.-]+\.[A-Za-z]{2,}` (the part after `@`). -/
def domainMatch : List Char → Bool
  | [] => false
  | c :: cs => isDomainChar c && domainTail cs

/-- Matcher for the part after the first local character: more local
characters, then `@` followed by the domain. -/
def emailBody : List Char → Bool
  | [] => false
  | c :: cs => (c = '@' && domainMatch cs) || (isLocalChar c && emailBody cs)

/-- The anchored email pattern of `LoginInput`:
`^[A-Za-z0-9._%+-]+@[A-Za-z0-9.-]+\.[A-Za-z]{2,}$`. -/
def matchesEmailPattern (s : String) : Bool :=
  match s.toList with
  | [] => false
  | c :: cs => isLocalChar c && emailBody cs

/-- Pydantic validation of `LoginInput` (`models.py`): email at most 254
characters matching the pattern, password at least 7 characters. -/
def validateLoginInput (r : RawLogin) : Option LoginInput :=
  if r.email.length ≤ 254 ∧ matchesEmailPattern r.email = true
      ∧ 7 ≤ r.password.length then
    some ⟨r.email, r.password⟩
  else
    none

/-- Pydantic validation of `InputTask` via `BaseTask` (`models.py`): title
at most 50 characters, `user_id` strictly positive. -/
def validateInputTask (r : RawTask) : Option InputTask :=
  if r.title.length ≤ 50 ∧ 0 < r.user_id then
    some ⟨r.title, r.completed, r.user_id⟩
  else
    none

/-- What `jwt.decode` did to the presented bearer token: signature valid
but expired, structurally invalid / bad signature / non-string subject
(all raised as `JWTError`), or a decoded payload with its optional `sub`
claim (a string when present, per the JWT library's claim validation). -/
inductive DecodeResult where
  | expired
  | malformed
  | payload (sub : Option String)
deriving Repr, DecidableEq

/-- Python `int(s)` on a string: an optional sign followed by one or more
ASCII digits (the whitespace/underscore forms Python also accepts are not
relevant here: subjects produced by `create_token` are plain digits).
`none` models the `ValueError` that `int` raises otherwise. -/
def digitsToNat : List Char → Option Nat
  | [] => none
  | cs =>
    if cs.all Char.isDigit then
      some (cs.foldl (fun n c => 10 * n + (c.toNat - 48)) 0)
    else
      none

/-- See `digitsToNat`: Python `int` over an optionally signed string. -/
def pyInt (s : String) : Option Int :=
  match s.toList with
  | '-' :: rest => (digitsToNat rest).map (fun n => -(n : Int))
  | '+' :: rest => (digitsToNat rest).map (fun n => (n : Int))
  | cs => (digitsToNat cs).map (fun n => (n : Int))

/-- The outcome of `get_current_user`: a resolved user, an
`HTTPException`, or an exception that no `except` clause catches and that
therefore escapes the handler. -/
inductive AuthOutcome where
  | ok (u : User)
  | httpErr (code : Nat) (detail : String)
  | uncaught (exc : String)
deriving Repr, DecidableEq

/-- `get_current_user` (`app.py`): dispatch on the decode outcome.  The
`HTTPException` for a falsy `sub` is raised inside the `try` block but is
caught by neither `except ExpiredSignatureError` nor `except JWTError`, so
it propagates; `int(sub)` on a non-integer subject raises `ValueError`,
which those clauses do not catch either. -/
def get_current_user (r : DecodeResult) (db : DB) : AuthOutcome :=
  match r with
  | .expired => .httpErr 401 "Token expired"
  | .malformed => .httpErr 401 "Invalid token"
  | .payload sub =>
    match sub with
    | none => .httpErr 401 "Invalid token payload"
    | some s =>
      if s = "" then .httpErr 401 "Invalid token payload"
      else
        match pyInt s with
        | none => .uncaught "ValueError"
        | some user_id =>
          match firstWhere (fun u => u.id == user_id) db.users with
          | none => .httpErr 401 "Error fetching user"
          | some u => .ok u

/-- `login` (`app.py`): look up the user by email; 401 if absent; 401 if
the password does not verify; otherwise 200 with a token for the user's
id.  `verify` abstracts `verify_pwd` (bcrypt). -/
def login (verify : String → String → Bool) (data : LoginInput) (db : DB) :
    Resp Token :=
  match firstWhere (fun u => u.email == data.email) db.users with
  | none => .err 401 ("Unable to find user with email: " ++ data.email)
  | some user =>
    if verify data.password user.password_hash then
      .ok 200 (create_token user.id)
    else
      .err 401 "Wrong password"

/-- `register` (`app.py`): 422 if the email is already present; otherwise
insert the user (autoincremented id, hashed password) and return 200 with
a token.  `hashPwd` abstracts `hash_pwd` (bcrypt). -/
def register (hashPwd : String → String) (data : LoginInput) (db : DB) :
    Resp Token × DB :=
  match firstWhere (fun u => u.email == data.email) db.users with
  | some _ => (.err 422 "Email already registered", db)
  | none =>
    let uid := nextId (db.users.map User.id)
    let user : User := ⟨uid, data.email, hashPwd data.password⟩
    (.ok 200 (create_token uid), { db with users := db.users ++ [user] })

/-- `get_task` (`app.py`): 404 if no task has the id, 403 if the caller is
not the owner, otherwise 200 with the task. -/
def get_task (task_id : Int) (user : User) (db : DB) : Resp OutputTask :=
  match firstWhere (fun t => t.id == task_id) db.tasks with
  | none => .err 404 ("Unable to find task " ++ toString task_id)
  | some task =>
    if task.user_id ≠ user.id then
      .err 403 "Not authorized to access this task"
    else
      .ok 200 (taskToOutput task)

/-- `create_task` (`app.py`): 422 if the body's `user_id` matches no user,
403 if it is not the caller's id, otherwise insert the task
(autoincremented id) and return 201 with it. -/
def create_task (task : InputTask) (user : User) (db : DB) :
    Resp OutputTask × DB :=
  match firstWhere (fun u => u.id == task.user_id) db.users with
  | none =>
    (.err 422 ("User with id " ++ toString task.user_id ++ " does not exist"),
     db)
  | some _ =>
    if user.id ≠ task.user_id then
      (.err 403 "Not authorized to create task for this user", db)
    else
      let tid := nextId (db.tasks.map Task.id)
      let new_task : Task := ⟨tid, task.title, task.completed, task.user_id⟩
      (.ok 201 (taskToOutput new_task),
       { db with tasks := db.tasks ++ [new_task] })

/-- `delete_task` (`app.py`): 404 if no task has the id, 403 if the caller
is not the owner, otherwise delete the row and return 202 with the deleted
task's fields. -/
def delete_task (task_id : Int) (user : User) (db : DB) :
    Resp OutputTask × DB :=
  match firstWhere (fun t => t.id == task_id) db.tasks with
  | none => (.err 404 ("Task " ++ toString task_id ++ " does not exist."), db)
  | some task =>
    if task.user_id ≠ user.id then
      (.err 403 "Not authorized to delete this task", db)
    else
      (.ok 202 (taskToOutput task),
       { db with tasks := eraseFirst (fun t => t.id == task_id) db.tasks })

/-- The field overwrite `update_task` performs: every `InputTask` field —
`title`, `completed` and `user_id` — is written over the stored row
(`for key, value in task.model_dump().items(): setattr(prev_task, key, value)`). -/
def overwriteTask (task : InputTask) (t : Task) : Task :=
  { t with title := task.title, completed := task.completed,
           user_id := task.user_id }

/-- `update_task` (`app.py`): 404 if no task has the id, 403 if the caller
is not the owner, otherwise overwrite every body field on the stored row,
commit, and return 202 with the refreshed row.  No check that the new
`user_id` exists is performed (contrast `create_task`), and the SQLite
engine is created without `PRAGMA foreign_keys=ON`, so the declared
`ForeignKey("user.id")` is not enforced at commit. -/
def update_task (task_id : Int) (task : InputTask) (user : User) (db : DB) :
    Resp OutputTask × DB :=
  match firstWhere (fun t => t.id == task_id) db.tasks with
  | none => (.err 404 ("Task " ++ toString task_id ++ " does not exist."), db)
  | some prev_task =>
    if prev_task.user_id ≠ user.id then
      (.err 403 "Not authorized to update this task", db)
    else
      (.ok 202 (taskToOutput (overwriteTask task prev_task)),
       { db with tasks := updateFirst (fun t => t.id == task_id)
                            (overwriteTask task) db.tasks })

/-- `get_tasks` (`app.py`): all tasks whose `user_id` is the caller's id. -/
def get_tasks (user : User) (db : DB) : List OutputTask :=
  (db.tasks.filter (fun t => t.user_id == user.id)).map taskToOutput

/-- POST `/login` as FastAPI serves it: pydantic validation of the body
(422 on failure) and then the handler.  Validation runs before the handler
ever touches the database. -/
def login_route (verify : String → String → Bool) (raw : RawLogin)
    (db : DB) : Resp Token :=
  match validateLoginInput raw with
  | none => .err 422 "validation error"
  | some data => login verify data db

/-- POST `/register` as served: body validation, then the handler. -/
def register_route (hashPwd : String → String) (raw : RawLogin) (db : DB) :
    Resp Token × DB :=
  match validateLoginInput raw with
  | none => (.err 422 "validation error", db)
  | some data => register hashPwd data db

/-- Lift an authentication outcome to a response: an `HTTPException`
becomes its error response; an exception that escapes every handler
becomes the framework's 500 Internal Server Error.  In both cases the
handler body never runs. -/
def withAuth (r : DecodeResult) (db : DB)
    (k : User → Resp α × DB) : Resp α × DB :=
  match get_current_user r db with
  | .httpErr c d => (.err c d, db)
  | .uncaught e => (.err 500 e, db)
  | .ok user => k user

/-- GET `/tasks/{task_id}` as served: authentication, path-parameter
validation (`Field(gt=0)`), handler. -/
def get_task_route (auth : DecodeResult) (task_id : Int) (db : DB) :
    Resp OutputTask × DB :=
  withAuth auth db fun user =>
    if task_id ≤ 0 then (.err 422 "validation error", db)
    else (get_task task_id user db, db)

/-- POST `/tasks/` as served: authentication, body validation, handler. -/
def create_task_route (auth : DecodeResult) (raw : RawTask) (db : DB) :
    Resp OutputTask × DB :=
  withAuth auth db fun user =>
    match validateInputTask raw with
    | none => (.err 422 "validation error", db)
    | some task => create_task task user db

/-- PUT `/tasks/{task_id}` as served: authentication, path and body
validation, handler. -/
def update_task_route (auth : DecodeResult) (task_id : Int) (raw : RawTask)
    (db : DB) : Resp OutputTask × DB :=
  withAuth auth db fun user =>
    if task_id ≤ 0 then (.err 422 "validation error", db)
    else
      match validateInputTask raw with
      | none => (.err 422 "validation error", db)
      | some task => update_task task_id task user db

/-- DELETE `/tasks/{task_id}` as served: authentication, path validation,
handler. -/
def delete_task_route (auth : DecodeResult) (task_id : Int) (db : DB) :
    Resp OutputTask × DB :=
  withAuth auth db fun user =>
    if task_id ≤ 0 then (.err 422 "validation error", db)
    else delete_task task_id user db

/-- One API request, with everything the client controls: the body, the
path parameter, and the decode outcome of whatever bearer token was sent. -/
inductive Op where
  | opRegister (raw : RawLogin)
  | opLogin (raw : RawLogin)
  | opGetTask (auth : DecodeResult) (task_id : Int)
  | opGetTasks (auth : DecodeResult)
  | opCreate (auth : DecodeResult) (raw : RawTask)
  | opUpdate (auth : DecodeResult) (task_id : Int) (raw : RawTask)
  | opDelete (auth : DecodeResult) (task_id : Int)

/-- The database after serving one request (`login`, `get_task` and
`get_tasks` never mutate). -/
def step (hashPwd : String → String) (op : Op) (db : DB) : DB :=
  match op with
  | .opRegister raw => (register_route hashPwd raw db).2
  | .opLogin _ => db
  | .opGetTask auth task_id => (get_task_route auth task_id db).2
  | .opGetTasks _ => db
  | .opCreate auth raw => (create_task_route auth raw db).2
  | .opUpdate auth task_id raw => (update_task_route auth task_id raw db).2
  | .opDelete auth task_id => (delete_task_route auth task_id db).2

/-- The foreign-key invariant of the data model: every task's `user_id`
is the id of some user. -/
def tasksFkValid (db : DB) : Bool :=
  db.tasks.all (fun t => db.users.any (fun u => u.id == t.user_id))

/-! ## Structural lemmas about the list-level table operations -/

/-- If the mapped keys of a list are pairwise distinct, then after erasing
the first element whose key is `k` no element with key `k` remains. -/
lemma eraseFirst_nodup_no_match {α β : Type} [DecidableEq β] (f : α → β)
    (k : β) (l : List α) (h : (l.map f).Nodup) :
    ∀ x ∈ eraseFirst (fun a => f a == k) l, f x ≠ k := by
  induction l with
  | nil => intro x hx; simp [eraseFirst] at hx
  | cons a l ih =>
    intro x hx
    rw [List.map_cons, List.nodup_cons] at h
    by_cases hpa : f a = k
    · simp only [eraseFirst, hpa, beq_self_eq_true, if_true] at hx
      intro hfx
      exact h.1 (by rw [hpa, ← hfx]; exact List.mem_map_of_mem f hx)
    · have : (f a == k) = false := beq_eq_false_iff_ne.2 hpa
      simp only [eraseFirst, this, Bool.false_eq_true, if_false,
        List.mem_cons] at hx
      rcases hx with rfl | hx
      · exact hpa
      · exact ih h.2 x hx

/-- Rewriting the first element found by `find?` makes `find?` return the
rewritten element, provided the rewrite preserves the predicate. -/
lemma find?_updateFirst {α : Type} (p : α → Bool) (f : α → α) (l : List α)
    (a : α) (h : l.find? p = some a) (hf : p (f a) = true) :
    (updateFirst p f l).find? p = some (f a) := by
  induction l with
  | nil => simp at h
  | cons x xs ih =>
    by_cases hpx : p x
    · rw [List.find?_cons_of_pos _ hpx] at h
      injection h with h; subst h
      simp only [updateFirst, hpx, if_true]
      exact List.find?_cons_of_pos _ hf
    · rw [List.find?_cons_of_neg _ hpx] at h
      have hb : p x = false := by simpa using hpx
      simp only [updateFirst, hb, Bool.false_eq_true, if_false]
      rw [List.find?_cons_of_neg _ hpx]
      exact ih h

/-! ## Handlers mutate the database only on their success path -/

lemma register_db_cases (hp : String → String) (d : LoginInput) (db : DB) :
    (register hp d db).2 = db ∨ (register hp d db).1.code = 200 := by
  unfold register
  cases h : firstWhere (fun u => u.email == d.email) db.users <;>
    simp [Resp.code]

lemma create_task_db_cases (t : InputTask) (u : User) (db : DB) :
    (create_task t u db).2 = db ∨ (create_task t u db).1.code = 201 := by
  unfold create_task
  cases h : firstWhere (fun x => x.id == t.user_id) db.users
  · simp
  · by_cases ho : u.id ≠ t.user_id <;> simp [ho, Resp.code]

lemma update_task_db_cases (task_id : Int) (t : InputTask) (u : User)
    (db : DB) :
    (update_task task_id t u db).2 = db
      ∨ (update_task task_id t u db).1.code = 202 := by
  unfold update_task
  cases h : firstWhere (fun x => x.id == task_id) db.tasks
  · simp
  · rename_i task
    by_cases ho : task.user_id ≠ u.id <;> simp [ho, Resp.code]

lemma delete_task_db_cases (task_id : Int) (u : User) (db : DB) :
    (delete_task task_id u db).2 = db
      ∨ (delete_task task_id u db).1.code = 202 := by
  unfold delete_task
  cases h : firstWhere (fun x => x.id == task_id) db.tasks
  · simp
  · rename_i task
    by_cases ho : task.user_id ≠ u.id <;> simp [ho, Resp.code]

lemma withAuth_cases {α : Type} (auth : DecodeResult) (db : DB)
    (k : User → Resp α × DB) :
    (withAuth auth db k).2 = db ∨ ∃ u, withAuth auth db k = k u := by
  unfold withAuth
  cases get_current_user auth db <;> simp

lemma register_route_db_cases (hp : String → String) (raw : RawLogin)
    (db : DB) :
    (register_route hp raw db).2 = db
      ∨ (register_route hp raw db).1.code = 200 := by
  unfold register_route
  cases hv : validateLoginInput raw
  · simp
  · exact register_db_cases _ _ _

lemma create_task_route_db_cases (auth : DecodeResult) (raw : RawTask)
    (db : DB) :
    (create_task_route auth raw db).2 = db
      ∨ (create_task_route auth raw db).1.code = 201 := by
  unfold create_task_route
  rcases withAuth_cases auth db _ with h | ⟨u, h⟩
  · exact Or.inl h
  · rw [h]
    cases hv : validateInputTask raw
    · simp
    · exact create_task_db_cases _ _ _

lemma update_task_route_db_cases (auth : DecodeResult) (task_id : Int)
    (raw : RawTask) (db : DB) :
    (update_task_route auth task_id raw db).2 = db
      ∨ (update_task_route auth task_id raw db).1.code = 202 := by
  unfold update_task_route
  rcases withAuth_cases auth db _ with h | ⟨u, h⟩
  · exact Or.inl h
  · rw [h]
    by_cases hid : task_id ≤ 0
    · simp [hid]
    · simp only [hid, if_false]
      cases hv : validateInputTask raw
      · simp
      · exact update_task_db_cases _ _ _ _

lemma delete_task_route_db_cases (auth : DecodeResult) (task_id : Int)
    (db : DB) :
    (delete_task_route auth task_id db).2 = db
      ∨ (delete_task_route auth task_id db).1.code = 202 := by
  unfold delete_task_route
  rcases withAuth_cases auth db _ with h | ⟨u, h⟩
  · exact Or.inl h
  · rw [h]
    by_cases hid : task_id ≤ 0
    · simp [hid]
    · simp only [hid, if_false]
      exact delete_task_db_cases _ _ _

/-- Whether an authentication outcome is an HTTP 401 error. -/
def AuthOutcome.is401 : AuthOutcome → Bool
  | .httpErr c _ => c == 401
  | _ => false

/-! ## Claims -/

/-- C1: the claim says every reachable database state satisfies the
foreign-key invariant (every task's `user_id` names an existing user).
The code violates it: from a state with one user (id 1) owning task 1, the
owner's authenticated `PUT /tasks/1` with body
`{title: "t", completed: false, user_id: 2}` — user 2 does not exist —
passes validation, succeeds with 202, and stores `user_id = 2`, breaking
the invariant. -/
theorem C1_fk_invariant_broken_by_put :
    tasksFkValid ⟨[⟨1, "a@b.co", "h"⟩], [⟨1, "t0", false, 1⟩]⟩ = true ∧
    (update_task_route (.payload (some "1")) 1 ⟨"t", false, 2⟩
        ⟨[⟨1, "a@b.co", "h"⟩], [⟨1, "t0", false, 1⟩]⟩).1
      = .ok 202 ⟨1, "t", false, 2⟩ ∧
    tasksFkValid
      (step id (.opUpdate (.payload (some "1")) 1 ⟨"t", false, 2⟩)
        ⟨[⟨1, "a@b.co", "h"⟩], [⟨1, "t0", false, 1⟩]⟩) = false := by
  refine ⟨rfl, by decide, by decide⟩

/-- C2: when the task exists but its `user_id` is not the caller's id,
GET, PUT and DELETE on `/tasks/{id}` all answer 403 and the database is
untouched. -/
theorem C2_cross_user_access_forbidden (task_id : Int) (user : User)
    (db : DB) (task : Task) (body : InputTask)
    (hfind : firstWhere (fun t => t.id == task_id) db.tasks = some task)
    (hown : task.user_id ≠ user.id) :
    get_task task_id user db
        = .err 403 "Not authorized to access this task" ∧
    update_task task_id body user db
        = (.err 403 "Not authorized to update this task", db) ∧
    delete_task task_id user db
        = (.err 403 "Not authorized to delete this task", db) := by
  unfold get_task update_task delete_task
  rw [hfind]
  simp [hown]

theorem C2_witness :
    get_task 3 ⟨1, "a@b.co", "h"⟩ ⟨[], [⟨3, "t", false, 2⟩]⟩
        = .err 403 "Not authorized to access this task" ∧
    update_task 3 ⟨"x", true, 1⟩ ⟨1, "a@b.co", "h"⟩
        ⟨[], [⟨3, "t", false, 2⟩]⟩
        = (.err 403 "Not authorized to update this task",
           ⟨[], [⟨3, "t", false, 2⟩]⟩) ∧
    delete_task 3 ⟨1, "a@b.co", "h"⟩ ⟨[], [⟨3, "t", false, 2⟩]⟩
        = (.err 403 "Not authorized to delete this task",
           ⟨[], [⟨3, "t", false, 2⟩]⟩) :=
  C2_cross_user_access_forbidden 3 ⟨1, "a@b.co", "h"⟩
    ⟨[], [⟨3, "t", false, 2⟩]⟩ ⟨3, "t", false, 2⟩ ⟨"x", true, 1⟩
    (by decide) (by decide)

/-- C3 counterexample: a decodable, signature-valid payload whose subject
is the non-integer string "abc" (it is present, and resolves to no user
id) makes `int(sub)` raise `ValueError`, which neither `except` clause
catches — the outcome is an escaped exception, not an HTTP 401. -/
theorem C3_counterexample :
    get_current_user (.payload (some "abc")) ⟨[⟨1, "a@b.co", "h"⟩], []⟩
        = .uncaught "ValueError" ∧
    (get_current_user (.payload (some "abc"))
        ⟨[⟨1, "a@b.co", "h"⟩], []⟩).is401 = false :=
  ⟨rfl, rfl⟩

/-- C3 (amended): an expired token yields 401 "Token expired" and a
malformed one 401 "Invalid token" — distinct details; a missing or empty
subject yields 401, and an integer subject matching no user yields 401;
but a decodable payload whose nonempty subject is not an integer string
escapes as an uncaught `ValueError` rather than any 401. -/
theorem C3_amended_token_errors (db : DB) (s : String) :
    get_current_user .expired db = .httpErr 401 "Token expired" ∧
    get_current_user .malformed db = .httpErr 401 "Invalid token" ∧
    ("Token expired" : String) ≠ "Invalid token" ∧
    get_current_user (.payload none) db
        = .httpErr 401 "Invalid token payload" ∧
    get_current_user (.payload (some "")) db
        = .httpErr 401 "Invalid token payload" ∧
    (∀ n : Int, pyInt s = some n →
      firstWhere (fun u => u.id == n) db.users = none →
      get_current_user (.payload (some s)) db
        = .httpErr 401 "Error fetching user") ∧
    (s ≠ "" → pyInt s = none →
      get_current_user (.payload (some s)) db
        = .uncaught "ValueError") := by
  refine ⟨rfl, rfl, by decide, rfl, rfl, ?_, ?_⟩
  · intro n hs hfind
    have hne : s ≠ "" := by
      intro h
      rw [h] at hs
      simp [pyInt, digitsToNat] at hs
    simp [get_current_user, hne, hs, hfind]
  · intro hne hs
    simp [get_current_user, hne, hs]

theorem C3_amended_witness :
    get_current_user (.payload (some "7")) ⟨[⟨1, "a@b.co", "h"⟩], []⟩
        = .httpErr 401 "Error fetching user" ∧
    get_current_user (.payload (some "x")) ⟨[⟨1, "a@b.co", "h"⟩], []⟩
        = .uncaught "ValueError" := by
  constructor
  · exact (C3_amended_token_errors ⟨[⟨1, "a@b.co", "h"⟩], []⟩
      "7").2.2.2.2.2.1 7 rfl rfl
  · exact (C3_amended_token_errors ⟨[⟨1, "a@b.co", "h"⟩], []⟩
      "x").2.2.2.2.2.2 (by decide) rfl

/-- The error statuses the handlers produce: 401 (authentication), 403
(authorization), 404 (missing resource), 422 (validation / precondition). -/
def isErrStatus (c : Nat) : Prop :=
  c = 401 ∨ c = 403 ∨ c = 404 ∨ c = 422

/-- C4: whenever `register`, `create_task`, `update_task` or `delete_task`
answers an error status (401, 403, 404 or 422), the database after the
request is exactly the database before it: each handler commits at most
one mutation and only on its success path. -/
theorem C4_errors_leave_db_unchanged (hashPwd : String → String)
    (auth : DecodeResult) (rawL : RawLogin) (raw : RawTask)
    (task_id : Int) (db : DB) :
    (isErrStatus (register_route hashPwd rawL db).1.code →
      (register_route hashPwd rawL db).2 = db) ∧
    (isErrStatus (create_task_route auth raw db).1.code →
      (create_task_route auth raw db).2 = db) ∧
    (isErrStatus (update_task_route auth task_id raw db).1.code →
      (update_task_route auth task_id raw db).2 = db) ∧
    (isErrStatus (delete_task_route auth task_id db).1.code →
      (delete_task_route auth task_id db).2 = db) := by
  refine ⟨fun h => ?_, fun h => ?_, fun h => ?_, fun h => ?_⟩
  · rcases register_route_db_cases hashPwd rawL db with h2 | h2
    · exact h2
    · rw [h2] at h; rcases h with h | h | h | h <;> omega
  · rcases create_task_route_db_cases auth raw db with h2 | h2
    · exact h2
    · rw [h2] at h; rcases h with h | h | h | h <;> omega
  · rcases update_task_route_db_cases auth task_id raw db with h2 | h2
    · exact h2
    · rw [h2] at h; rcases h with h | h | h | h <;> omega
  · rcases delete_task_route_db_cases auth task_id db with h2 | h2
    · exact h2
    · rw [h2] at h; rcases h with h | h | h | h <;> omega

theorem C4_witness :
    (register_route id ⟨"a@b.co", "password1"⟩
        ⟨[⟨1, "a@b.co", "h"⟩], []⟩).2 = ⟨[⟨1, "a@b.co", "h"⟩], []⟩ ∧
    (create_task_route .malformed ⟨"t", false, 1⟩
        ⟨[⟨1, "a@b.co", "h"⟩], []⟩).2 = ⟨[⟨1, "a@b.co", "h"⟩], []⟩ ∧
    (update_task_route .malformed 1 ⟨"t", false, 1⟩
        ⟨[⟨1, "a@b.co", "h"⟩], []⟩).2 = ⟨[⟨1, "a@b.co", "h"⟩], []⟩ ∧
    (delete_task_route .malformed 1
        ⟨[⟨1, "a@b.co", "h"⟩], []⟩).2 = ⟨[⟨1, "a@b.co", "h"⟩], []⟩ := by
  have h := C4_errors_leave_db_unchanged id .malformed
    ⟨"a@b.co", "password1"⟩ ⟨"t", false, 1⟩ 1 ⟨[⟨1, "a@b.co", "h"⟩], []⟩
  exact ⟨h.1 (by right; right; right; rfl), h.2.1 (by left; rfl),
    h.2.2.1 (by left; rfl), h.2.2.2 (by left; rfl)⟩

/-- C5: if the owner's DELETE of a task succeeds (202), then on the
resulting state GET of that id answers 404, and no task with that id
appears in the owner's task list (task ids are pairwise distinct, being
the primary key). -/
theorem C5_deleted_task_unfetchable (task_id : Int) (user : User) (db : DB)
    (out : Resp OutputTask) (db2 : DB)
    (hpk : (db.tasks.map Task.id).Nodup)
    (hdel : delete_task task_id user db = (out, db2))
    (hcode : out.code = 202) :
    get_task task_id user db2
        = .err 404 ("Unable to find task " ++ toString task_id) ∧
    ∀ o ∈ get_tasks user db2, o.id ≠ task_id := by
  unfold delete_task at hdel
  cases hfind : firstWhere (fun t => t.id == task_id) db.tasks with
  | none =>
    simp only [hfind] at hdel
    injection hdel with h1 _
    rw [← h1] at hcode
    simp [Resp.code] at hcode
  | some task =>
    simp only [hfind] at hdel
    by_cases hown : task.user_id ≠ user.id
    · rw [if_pos hown] at hdel
      injection hdel with h1 _
      rw [← h1] at hcode
      simp [Resp.code] at hcode
    · rw [if_neg hown] at hdel
      injection hdel with _ h2
      have herase : ∀ x ∈ eraseFirst (fun t => t.id == task_id) db.tasks,
          x.id ≠ task_id :=
        eraseFirst_nodup_no_match Task.id task_id db.tasks hpk
      have htasks : db2.tasks = eraseFirst (fun t => t.id == task_id)
          db.tasks := by rw [← h2]
      have hnone : firstWhere (fun t => t.id == task_id) db2.tasks
          = none := by
        rw [htasks]
        unfold firstWhere
        rw [List.find?_eq_none]
        intro x hx
        simpa using herase x hx
      constructor
      · unfold get_task
        rw [hnone]
      · intro o ho
        unfold get_tasks at ho
        rw [List.mem_map] at ho
        obtain ⟨t, ht, rfl⟩ := ho
        have ht' := List.mem_of_mem_filter ht
        rw [htasks] at ht'
        exact herase t ht'

theorem C5_witness :
    get_task 1 ⟨1, "a@b.co", "h"⟩
        ⟨[⟨1, "a@b.co", "h"⟩], [⟨2, "s", true, 1⟩]⟩
        = .err 404 ("Unable to find task " ++ toString (1 : Int)) :=
  (C5_deleted_task_unfetchable 1 ⟨1, "a@b.co", "h"⟩
    ⟨[⟨1, "a@b.co", "h"⟩], [⟨1, "t", false, 1⟩, ⟨2, "s", true, 1⟩]⟩
    (.ok 202 ⟨1, "t", false, 1⟩)
    ⟨[⟨1, "a@b.co", "h"⟩], [⟨2, "s", true, 1⟩]⟩
    (by decide) (by decide) rfl).1

/-- C6: a successful owner PUT answers 202 with a task carrying exactly
the body's `title`, `completed` and `user_id` (a full overwrite — a body
omitting `completed` defaults it to false and overwrites the stored flag)
and the path's id, and the stored row now holds those same values. -/
theorem C6_put_overwrites_all_fields (task_id : Int) (body : InputTask)
    (user : User) (db : DB) (prev : Task)
    (hfind : firstWhere (fun t => t.id == task_id) db.tasks = some prev)
    (hown : prev.user_id = user.id) :
    (update_task task_id body user db).1
        = .ok 202 ⟨task_id, body.title, body.completed, body.user_id⟩ ∧
    firstWhere (fun t => t.id == task_id)
        (update_task task_id body user db).2.tasks
      = some ⟨task_id, body.title, body.completed, body.user_id⟩ := by
  have hfind2 : db.tasks.find? (fun t => t.id == task_id) = some prev :=
    hfind
  have hpa := List.find?_some hfind2
  have hid : prev.id = task_id := by simpa using hpa
  have hov : overwriteTask body prev
      = ⟨task_id, body.title, body.completed, body.user_id⟩ := by
    simp [overwriteTask, hid]
  unfold update_task
  simp only [hfind, hown, ne_eq, not_true_eq_false, if_false]
  constructor
  · simp [taskToOutput, hov]
  · have := find?_updateFirst (fun t => t.id == task_id)
      (overwriteTask body) db.tasks prev hfind2
      (by simp [overwriteTask, hid])
    unfold firstWhere
    rw [this, hov]

theorem C6_witness :
    (update_task 1 ⟨"new title", true, 5⟩ ⟨1, "a@b.co", "h"⟩
        ⟨[⟨1, "a@b.co", "h"⟩], [⟨1, "t", false, 1⟩]⟩).1
        = .ok 202 ⟨1, "new title", true, 5⟩ ∧
    firstWhere (fun t => t.id == 1)
        (update_task 1 ⟨"new title", true, 5⟩ ⟨1, "a@b.co", "h"⟩
          ⟨[⟨1, "a@b.co", "h"⟩], [⟨1, "t", false, 1⟩]⟩).2.tasks
      = some ⟨1, "new title", true, 5⟩ :=
  C6_put_overwrites_all_fields 1 ⟨"new title", true, 5⟩ ⟨1, "a@b.co", "h"⟩
    ⟨[⟨1, "a@b.co", "h"⟩], [⟨1, "t", false, 1⟩]⟩ ⟨1, "t", false, 1⟩
    (by decide) rfl

/-- C7: GET `/tasks/` lists exactly the caller's tasks — every listed
task has the caller's `user_id`, and every stored task with the caller's
`user_id` is listed. -/
theorem C7_get_tasks_exactly_owned (user : User) (db : DB) :
    (∀ o ∈ get_tasks user db, o.user_id = user.id) ∧
    (∀ t ∈ db.tasks, t.user_id = user.id →
      taskToOutput t ∈ get_tasks user db) := by
  constructor
  · intro o ho
    unfold get_tasks at ho
    rw [List.mem_map] at ho
    obtain ⟨t, ht, rfl⟩ := ho
    have := List.of_mem_filter ht
    simpa [taskToOutput] using this
  · intro t ht hu
    unfold get_tasks
    exact List.mem_map_of_mem _ (List.mem_filter.2 ⟨ht, by simp [hu]⟩)

theorem C7_witness :
    taskToOutput ⟨1, "t", false, 1⟩ ∈ get_tasks ⟨1, "a@b.co", "h"⟩
      ⟨[⟨1, "a@b.co", "h"⟩], [⟨1, "t", false, 1⟩, ⟨2, "s", true, 2⟩]⟩ :=
  (C7_get_tasks_exactly_owned ⟨1, "a@b.co", "h"⟩
    ⟨[⟨1, "a@b.co", "h"⟩], [⟨1, "t", false, 1⟩, ⟨2, "s", true, 2⟩]⟩).2
    ⟨1, "t", false, 1⟩ (by decide) rfl

/-- C8: POST `/login` answers 401 when no stored user has the request's
email, 401 "Wrong password" when the found user's stored hash does not
verify against the supplied password, and 200 with a token whose subject
is the user's id when it does. -/
theorem C8_login_behaviour (verify : String → String → Bool)
    (data : LoginInput) (db : DB) :
    ((∀ u ∈ db.users, u.email ≠ data.email) →
      login verify data db
        = .err 401 ("Unable to find user with email: " ++ data.email)) ∧
    (∀ u, firstWhere (fun x => x.email == data.email) db.users = some u →
      verify data.password u.password_hash = false →
      login verify data db = .err 401 "Wrong password") ∧
    (∀ u, firstWhere (fun x => x.email == data.email) db.users = some u →
      verify data.password u.password_hash = true →
      login verify data db = .ok 200 ⟨toString u.id⟩) := by
  refine ⟨fun h => ?_, fun u hu hv => ?_, fun u hu hv => ?_⟩
  · have hnone : firstWhere (fun x => x.email == data.email) db.users
        = none := by
      unfold firstWhere
      rw [List.find?_eq_none]
      intro x hx
      simpa using h x hx
    unfold login
    rw [hnone]
  · unfold login
    simp only [hu, hv, Bool.false_eq_true, if_false]
  · unfold login
    simp only [hu, hv, if_true]
    rfl

theorem C8_witness :
    login (fun p h => h == "hash:" ++ p) ⟨"a@b.co", "password1"⟩
        ⟨[⟨1, "a@b.co", "hash:password1"⟩], []⟩ = .ok 200 ⟨"1"⟩ ∧
    login (fun p h => h == "hash:" ++ p) ⟨"a@b.co", "wrongpass"⟩
        ⟨[⟨1, "a@b.co", "hash:password1"⟩], []⟩
        = .err 401 "Wrong password" ∧
    login (fun p h => h == "hash:" ++ p) ⟨"b@b.co", "password1"⟩
        ⟨[⟨1, "a@b.co", "hash:password1"⟩], []⟩
        = .err 401 ("Unable to find user with email: " ++ "b@b.co") := by
  refine ⟨?_, ?_, ?_⟩
  · exact (C8_login_behaviour (fun p h => h == "hash:" ++ p)
      ⟨"a@b.co", "password1"⟩ ⟨[⟨1, "a@b.co", "hash:password1"⟩], []⟩).2.2
      ⟨1, "a@b.co", "hash:password1"⟩ (by decide) (by decide)
  · exact (C8_login_behaviour (fun p h => h == "hash:" ++ p)
      ⟨"a@b.co", "wrongpass"⟩ ⟨[⟨1, "a@b.co", "hash:password1"⟩], []⟩).2.1
      ⟨1, "a@b.co", "hash:password1"⟩ (by decide) (by decide)
  · exact (C8_login_behaviour (fun p h => h == "hash:" ++ p)
      ⟨"b@b.co", "password1"⟩ ⟨[⟨1, "a@b.co", "hash:password1"⟩], []⟩).1
      (by decide)

/-- C9: for an authenticated caller, a POST `/tasks/` body whose title
exceeds 50 characters is rejected 422 with the database unchanged; a
50-character title passes validation unchanged, and with the caller as
the (existing) owner the request succeeds with 201. -/
theorem C9_title_length_bound (auth : DecodeResult) (raw : RawTask)
    (user : User) (db : DB)
    (hauth : get_current_user auth db = .ok user) :
    (50 < raw.title.length →
      create_task_route auth raw db = (.err 422 "validation error", db)) ∧
    (raw.title.length = 50 → 0 < raw.user_id →
      validateInputTask raw
        = some ⟨raw.title, raw.completed, raw.user_id⟩) ∧
    (∀ w, raw.title.length = 50 → 0 < raw.user_id →
      raw.user_id = user.id →
      firstWhere (fun x => x.id == raw.user_id) db.users = some w →
      (create_task_route auth raw db).1.code = 201) := by
  refine ⟨fun hlen => ?_, fun hlen hid => ?_,
    fun w hlen hpos hid hfind => ?_⟩
  · unfold create_task_route withAuth
    rw [hauth]
    have hv : validateInputTask raw = none := by
      unfold validateInputTask
      exact if_neg (fun h => by omega)
    rw [hv]
  · unfold validateInputTask
    exact if_pos (by constructor <;> omega)
  · unfold create_task_route withAuth
    rw [hauth]
    have hv : validateInputTask raw
        = some ⟨raw.title, raw.completed, raw.user_id⟩ := by
      unfold validateInputTask
      exact if_pos (by constructor <;> omega)
    rw [hv]
    unfold create_task
    rw [hid] at hfind
    simp only [hid, hfind, ne_eq, not_true_eq_false, if_false]
    rfl

theorem C9_witness :
    create_task_route (.payload (some "1"))
        ⟨"aaaaaaaaaaaaaaaaaaaaaaaaaaaaaaaaaaaaaaaaaaaaaaaaaaa", false, 1⟩
        ⟨[⟨1, "a@b.co", "h"⟩], []⟩
        = (.err 422 "validation error", ⟨[⟨1, "a@b.co", "h"⟩], []⟩) ∧
    (create_task_route (.payload (some "1"))
        ⟨"aaaaaaaaaaaaaaaaaaaaaaaaaaaaaaaaaaaaaaaaaaaaaaaaaa", false, 1⟩
        ⟨[⟨1, "a@b.co", "h"⟩], []⟩).1.code = 201 := by
  have h := C9_title_length_bound (.payload (some "1"))
    ⟨"aaaaaaaaaaaaaaaaaaaaaaaaaaaaaaaaaaaaaaaaaaaaaaaaaaa", false, 1⟩
    ⟨1, "a@b.co", "h"⟩ ⟨[⟨1, "a@b.co", "h"⟩], []⟩ rfl
  have h2 := C9_title_length_bound (.payload (some "1"))
    ⟨"aaaaaaaaaaaaaaaaaaaaaaaaaaaaaaaaaaaaaaaaaaaaaaaaaa", false, 1⟩
    ⟨1, "a@b.co", "h"⟩ ⟨[⟨1, "a@b.co", "h"⟩], []⟩ rfl
  exact ⟨h.1 (by decide), h2.2.2 ⟨1, "a@b.co", "h"⟩ (by decide) (by decide)
    rfl (by decide)⟩

/-- C10: `/login` and `/register` share `LoginInput`, so a login body
with a password shorter than 7 characters or an email failing the
pattern is rejected 422 by validation — before any lookup or password
check, whatever the database holds — and never yields the 401
authentication error. -/
theorem C10_login_validation_precedes_auth
    (verify : String → String → Bool) (raw : RawLogin) (db : DB)
    (h : raw.password.length < 7 ∨ matchesEmailPattern raw.email = false) :
    login_route verify raw db = .err 422 "validation error" ∧
    (login_route verify raw db).code ≠ 401 := by
  have hv : validateLoginInput raw = none := by
    unfold validateLoginInput
    rcases h with h | h
    · exact if_neg (fun h2 => by omega)
    · exact if_neg (fun h2 => by rw [h] at h2; exact absurd h2.2.1 (by simp))
  unfold login_route
  rw [hv]
  exact ⟨rfl, by simp [Resp.code]⟩

theorem C10_witness :
    login_route (fun p h => h == "hash:" ++ p) ⟨"a@b.co", "short"⟩
        ⟨[⟨1, "a@b.co", "hash:short"⟩], []⟩
        = .err 422 "validation error" ∧
    login_route (fun p h => h == "hash:" ++ p)
        ⟨"not-an-email", "password1"⟩ ⟨[⟨1, "a@b.co", "hash:short"⟩], []⟩
        = .err 422 "validation error" := by
  constructor
  · exact (C10_login_validation_precedes_auth (fun p h => h == "hash:" ++ p)
      ⟨"a@b.co", "short"⟩ ⟨[⟨1, "a@b.co", "hash:short"⟩], []⟩
      (Or.inl (by decide))).1
  · exact (C10_login_validation_precedes_auth (fun p h => h == "hash:" ++ p)
      ⟨"not-an-email", "password1"⟩ ⟨[⟨1, "a@b.co", "hash:short"⟩], []⟩
      (Or.inr (by decide))).1
